import Mathlib

/-!
Shallow embedding of the PoS spider (src/hepcrawl/spiders/pos_spider.py).

The spider drives a three-stage chain per input record: it builds the
paper-page URL from the identifier of the source record, fetches that page,
extracts the pdf link, builds a conference paper record, resolves the
proceedings page URL from the first non-pdf anchor, fetches the proceedings
page and builds a proceedings record.

Markup handling (scrapy Selector with xpath queries) is embedded at the level
of the query results: an XML source record is embedded as the tuple of text
nodes the spider queries, and an HTML page as the list of its anchor elements
(text content and optional href attribute), plus the emptiness of the raw
markup string (which the spider tests with Python truthiness).  All machine
behaviour (splitting, indexing, None propagation, exceptions) follows the
Python source; exceptions are embedded as error values of an Except type.
-/

deriving instance DecidableEq for Except

namespace POSSpider

/-- Splits a character list at every character satisfying p, keeping empty
groups, exactly like Python re.split over a character class (and like
str.split with a single-character separator).  The result is never empty. -/
def splitChars (p : Char → Bool) : List Char → List (List Char)
  | [] => [[]]
  | c :: cs =>
    if p c then [] :: splitChars p cs
    else
      match splitChars p cs with
      | [] => [[c]]
      | g :: gs => (c :: g) :: gs

/-- Python-style split of a string at every character satisfying p. -/
def pySplit (p : Char → Bool) (s : String) : List String :=
  (splitChars p s.toList).map (fun cs => String.mk cs)

/-- Embeds re.split of the character class of the two parenthesis characters,
as used by the journal reference helpers (pos_spider.py lines 344-352). -/
def splitParens (s : String) : List String :=
  pySplit (fun c => c == '(' || c == ')') s

/-- Embeds Python str.split on the slash character
(pos_spider.py line 190). -/
def pySplitSlash (s : String) : List String :=
  pySplit (fun c => c == '/') s

/-- Whether the first list is an initial segment of the second. -/
def beginsWith : List Char → List Char → Bool
  | [], _ => true
  | _ :: _, [] => false
  | a :: as, b :: bs => a == b && beginsWith as bs

/-- Whether sub occurs as a contiguous segment of the second list. -/
def hasSubstr (sub : List Char) : List Char → Bool
  | [] => sub.isEmpty
  | c :: cs => beginsWith sub (c :: cs) || hasSubstr sub cs

/-- Embeds the xpath predicate contains(text(), sub) on an element whose text
content is s, and the Python membership test sub in s. -/
def strContains (s sub : String) : Bool :=
  hasSubstr sub.toList s.toList

/-- Python str(...) as applied by str.format to an optional value: None
formats as the four-character string None (pos_spider.py line 112). -/
def pyFormatOpt : Option String → String
  | some s => s
  | none => "None"

/-- Fold of decimal digits into a natural number. -/
def digitsVal (cs : List Char) : Nat :=
  cs.foldl (fun n c => n * 10 + (c.toNat - 48)) 0

/-- Embeds Python int(...) on a string, restricted to plain digit strings:
a nonempty all-digit string parses, anything else raises (none). -/
def pyInt (s : String) : Option Nat :=
  if s.toList.isEmpty then none
  else if s.toList.all Char.isDigit then some (digitsVal s.toList)
  else none

/-- Embeds the Python slice s[0:n]. -/
def pySlice (s : String) (n : Nat) : String :=
  String.mk (s.toList.take n)

/-- Modelled from the spec: urlparse.urljoin is outside src/.  The spec
(section 6) only requires that the pdf URL be the base URL joined with the
relative href; this model handles the three href shapes the spec mentions:
absolute URLs are returned as given, root-relative paths are joined to the
scheme and authority of the base, and other relative paths replace the last
path component of the base. -/
def urljoin (base rel : String) : String :=
  if strContains rel "://" then rel
  else if beginsWith ['/'] rel.toList then
    String.intercalate "/" ((pySplitSlash base).take 3) ++ rel
  else
    String.intercalate "/" ((pySplitSlash base).dropLast) ++ "/" ++ rel

/-- One creator element of the source record, as the spider queries it:
the text nodes below its name elements and below its affiliation elements
(pos_spider.py lines 382-389). -/
structure Creator where
  nameTexts : List String
  affiliationTexts : List String
  deriving DecidableEq

/-- The source record (metadata/pex-dc subtree), embedded as the tuple of
query results the spider extracts from it.  Every extract_first result is an
Option: none embeds a missing text node (Python None). -/
structure PexDC where
  identifier : Option String
  title : Option String
  dateStr : Option String
  language : Option String
  rights : Option String
  publisher : Option String
  creators : List Creator
  deriving DecidableEq

/-- One anchor element of an HTML page: its text content (empty string when
the element has no text node, matching the xpath string conversion) and its
optional href attribute. -/
structure Anchor where
  text : String
  href : Option String
  deriving DecidableEq

/-- A fetched paper page: whether the raw markup string is empty (Python
truthiness of response.body, tested at pos_spider.py line 150) and the anchor
elements the selector finds in it. -/
structure Html where
  isEmptyMarkup : Bool
  anchors : List Anchor
  deriving DecidableEq

/-- A fetched proceedings page, embedded as the query results used by
build_conference_proceedings_item: the h1 text nodes and the text nodes of
the conference_date div (pos_spider.py lines 406-415). -/
structure ProcHtml where
  h1Texts : List String
  conferenceDateTexts : List String
  deriving DecidableEq

/-- The failure modes of one chain.  The first two embed the deliberately
raised PoSExtractionException; the next three embed Python runtime crashes
(AttributeError on None.split, TypeError from re.split on None, IndexError
from indexing a short list); the last embeds the date validation failure of
the external dateutils collaborator. -/
inductive PosError
  | pdfLinkNotFound
  | emptyPaperPage
  | attributeErrorNoneSplit
  | typeErrorSplitNone
  | indexError
  | dateParseError
  deriving DecidableEq

/-- Whether the failure is a deliberately raised PoSExtractionException
(a reported extraction error), as opposed to a runtime crash. -/
def PosError.isReportedExtraction : PosError → Bool
  | .pdfLinkNotFound => true
  | .emptyPaperPage => true
  | _ => false

def DEFAULT_BASE_URL : String := "https://pos.sissa.it"

def DEFAULT_BASE_CONFERENCE_PAPER_URL : String :=
  DEFAULT_BASE_URL ++ "/contribution?id="

def DEFAULT_BASE_PROCEEDINGS_URL : String :=
  DEFAULT_BASE_URL ++ "/cgi-bin/reader/conf.cgi?confid="

/-- The two configured base URLs of the spider.  The source stores them on
the spider instance (the attribute-name casing in the source is inconsistent
between the constructor and the use sites; the embedding uses one field per
configured value, which is the evident intent). -/
structure Config where
  base_conference_paper_url : String := DEFAULT_BASE_CONFERENCE_PAPER_URL
  base_proceedings_url : String := DEFAULT_BASE_PROCEEDINGS_URL
  deriving DecidableEq

/-- Modelled from the spec: utils.get_first is outside src/; it returns the
first element of the list, or the default when the list is empty. -/
def get_first (l : List String) (default : String) : String :=
  l.headD default

/-- Modelled from the spec: utils.get_licenses is outside src/; the spec
delegates license matching to an external collaborator, so the model carries
the raw rights text through as the license list (deterministically). -/
def get_licenses (license_text : Option String) : List String :=
  match license_text with
  | some s => [s]
  | none => []

/-- Whether a string has the ten-character shape of an ISO date:
four digits, a dash, two digits, a dash, two digits. -/
def isIsoDate (s : String) : Bool :=
  match s.toList with
  | [a, b, c, d, s1, e, f, s2, g, k] =>
    a.isDigit && b.isDigit && c.isDigit && d.isDigit && (s1 == '-') &&
    e.isDigit && f.isDigit && (s2 == '-') && g.isDigit && k.isDigit
  | _ => false

/-- Modelled from the spec: dateutils.create_valid_date is outside src/; the
spec (section 4.4) says the raw date string is parsed into a validated ISO
date and that malformed input fails.  The model accepts exactly ISO-shaped
dates and fails (none) on anything else, including a missing date node. -/
def create_valid_date (raw : Option String) : Option String :=
  raw.bind (fun s => if isIsoDate s then some s else none)

/-- Embeds POSSpider._get_journal_title (line 344): the first component of
the parenthesis split of the identifier.  The Option result embeds the
possible IndexError. -/
def _get_journal_title (pos_ext_identifier : String) : Option String :=
  (splitParens pos_ext_identifier).get? 0

/-- Embeds POSSpider._get_journal_volume (line 348): the second component of
the parenthesis split of the identifier. -/
def _get_journal_volume (pos_ext_identifier : String) : Option String :=
  (splitParens pos_ext_identifier).get? 1

/-- Embeds POSSpider._get_journal_artid (line 352): the third component of
the parenthesis split of the identifier. -/
def _get_journal_artid (pos_ext_identifier : String) : Option String :=
  (splitParens pos_ext_identifier).get? 2

/-- Embeds POSSpider._get_language (lines 336-340): the extracted language
text node is returned unchanged unless it equals the string en, in which
case None is returned.  A missing language node (none) also yields none,
since in Python None compares unequal to en and is returned as is. -/
def _get_language (selector : PexDC) : Option String :=
  if selector.language = some "en" then none else selector.language

/-- One external system number entry
(pos_spider.py lines 356-363). -/
structure ExtSystemNumber where
  institute : String
  value : Option String
  deriving DecidableEq

/-- Embeds POSSpider._get_ext_systems_number (lines 355-363). -/
def _get_ext_systems_number (selector : PexDC) : List ExtSystemNumber :=
  [{ institute := "pos", value := selector.identifier }]

/-- Embeds POSSpider._get_date (lines 366-373): validate the raw date text
through create_valid_date, then read the year as int(date[0:4]).  A
validation or int failure embeds as the date parse error. -/
def _get_date (selector : PexDC) : Except PosError (String × Nat) :=
  match create_valid_date selector.dateStr with
  | none => Except.error PosError.dateParseError
  | some date =>
    match pyInt (pySlice date 4) with
    | none => Except.error PosError.dateParseError
    | some year => Except.ok (date, year)

/-- One affiliation value object (pos_spider.py lines 392-400). -/
structure Affiliation where
  value : String
  deriving DecidableEq

/-- The author dictionary built per creator (pos_spider.py lines 381-401).
Each field is present (some) exactly when the corresponding key was set. -/
structure AuthDict where
  raw_name : Option String
  affiliations : Option (List Affiliation)
  deriving DecidableEq

/-- Python truthiness of the author dictionary: empty when no key is set. -/
def AuthDict.isEmptyDict (d : AuthDict) : Bool :=
  d.raw_name.isNone && d.affiliations.isNone

/-- The dictionary the loop body of _get_authors builds for one creator:
raw_name is always set (get_first with default empty string), affiliations
is set exactly when at least one affiliation text node exists, in order. -/
def authDictOfCreator (c : Creator) : AuthDict :=
  { raw_name := some (get_first c.nameTexts "")
  , affiliations :=
      if c.affiliationTexts.isEmpty then none
      else some (c.affiliationTexts.map (fun t => { value := t })) }

/-- Embeds POSSpider._get_authors (lines 376-404): per creator build the
author dictionary and append it when it is nonempty (Python if auth_dict). -/
def _get_authors (selector : PexDC) : List AuthDict :=
  selector.creators.foldr
    (fun c acc =>
      let d := authDictOfCreator c
      if d.isEmptyDict then acc else d :: acc)
    []

/-- One attached file descriptor (pos_spider.py lines 328-333). -/
structure Fft where
  path : String
  deriving DecidableEq

/-- Embeds POSSpider._set_fft (lines 327-333). -/
def _set_fft (path : String) : List Fft :=
  [{ path := path }]

/-- Embeds POSSpider._get_proceedings_title (lines 407-408):
extract_first of the h1 text nodes. -/
def _get_proceedings_title (selector : ProcHtml) : Option String :=
  selector.h1Texts.head?

/-- Embeds POSSpider._get_proceedings_date_place (lines 411-415):
join of the conference_date text nodes with no separator. -/
def _get_proceedings_date_place (selector : ProcHtml) : String :=
  String.join selector.conferenceDateTexts

/-- Embeds POSSpider._get_conference_paper_pdf_url (lines 298-318): the first
href among anchors whose text contains pdf; a missing or empty href value is
falsy in Python and raises the extraction exception; otherwise the relative
href is joined onto the base conference paper URL. -/
def _get_conference_paper_pdf_url (cfg : Config) (page : Html) :
    Except PosError String :=
  match ((page.anchors.filter (fun a => strContains a.text "pdf")).filterMap
      (fun a => a.href)).head? with
  | none => Except.error PosError.pdfLinkNotFound
  | some u =>
    if u = "" then Except.error PosError.pdfLinkNotFound
    else Except.ok (urljoin cfg.base_conference_paper_url u)

/-- Embeds POSSpider._get_proceedings_page_url (lines 182-194): the first
href among anchors whose text does not contain pdf; when no such href exists
extract_first returns None and None.split raises an AttributeError; otherwise
the href is split on slashes, component one is taken (IndexError when the
split has fewer than two components) and appended to the proceedings base. -/
def _get_proceedings_page_url (cfg : Config) (page : Html) :
    Except PosError String :=
  match ((page.anchors.filter (fun a => !(strContains a.text "pdf"))).filterMap
      (fun a => a.href)).head? with
  | none => Except.error PosError.attributeErrorNoneSplit
  | some internal_url =>
    match (pySplitSlash internal_url).get? 1 with
    | none => Except.error PosError.indexError
    | some proceedings_internal_id =>
      Except.ok (cfg.base_proceedings_url ++ proceedings_internal_id)

/-- The conference paper output record, with one field per loader field that
build_conference_paper_item adds (pos_spider.py lines 196-259).  Optional
fields embed loader values that may be absent (add_value of None). -/
structure ConferencePaperRecord where
  license : List String
  date_published : String
  journal_year : Nat
  journal_title : String
  journal_volume : String
  journal_artid : String
  title : Option String
  source : Option String
  external_system_numbers : List ExtSystemNumber
  language : Option String
  authors : List AuthDict
  collections : List String
  urls : List String
  fft : List Fft
  deriving DecidableEq

/-- Embeds POSSpider.build_conference_paper_item (lines 196-259), in source
order: license, date and year, identifier extraction, the three journal
reference components (re.split on a missing identifier raises a TypeError;
indexing a short split raises an IndexError), then the remaining fields. -/
def build_conference_paper_item (xml_record : PexDC)
    (conference_paper_url conference_paper_pdf_url : String) :
    Except PosError ConferencePaperRecord :=
  match _get_date xml_record with
  | Except.error e => Except.error e
  | Except.ok (date, year) =>
    match xml_record.identifier with
    | none => Except.error PosError.typeErrorSplitNone
    | some identifier =>
      match _get_journal_title identifier with
      | none => Except.error PosError.indexError
      | some jt =>
        match _get_journal_volume identifier with
        | none => Except.error PosError.indexError
        | some jv =>
          match _get_journal_artid identifier with
          | none => Except.error PosError.indexError
          | some ja =>
            Except.ok
              { license := get_licenses xml_record.rights
              , date_published := date
              , journal_year := year
              , journal_title := jt
              , journal_volume := jv
              , journal_artid := ja
              , title := xml_record.title
              , source := xml_record.publisher
              , external_system_numbers := _get_ext_systems_number xml_record
              , language := _get_language xml_record
              , authors := _get_authors xml_record
              , collections := ["conferencepaper"]
              , urls := [conference_paper_url]
              , fft := _set_fft conference_paper_pdf_url }

/-- The conference proceedings output record
(pos_spider.py lines 261-296). -/
structure ProceedingsRecord where
  collections : List String
  title : Option String
  subtitle : String
  journal_title : String
  journal_volume : String
  deriving DecidableEq

/-- Embeds POSSpider.build_conference_proceedings_item (lines 261-296): a
missing pos_id raises a TypeError inside re.split, a short split raises an
IndexError on component one, otherwise the record is built. -/
def build_conference_proceedings_item (proceedings_page_html : ProcHtml)
    (pos_id : Option String) : Except PosError ProceedingsRecord :=
  match pos_id with
  | none => Except.error PosError.typeErrorSplitNone
  | some idv =>
    match _get_journal_volume idv with
    | none => Except.error PosError.indexError
    | some jv =>
      Except.ok
        { collections := ["proceeding"]
        , title := _get_proceedings_title proceedings_page_html
        , subtitle := _get_proceedings_date_place proceedings_page_html
        , journal_title := "PoS"
        , journal_volume := jv }

/-- The meta dictionary threaded through the chain: the extracted source
record markup (always set before the paper-page callback) and the paper-page
markup (set by parse_conference_paper before the proceedings step). -/
structure Meta where
  xml_record : PexDC
  html_record : Option Html
  deriving DecidableEq

/-- The paper-page request produced by stage 0. -/
structure PaperRequest where
  url : String
  meta : Meta
  deriving DecidableEq

/-- Embeds the URL format of get_conference_paper_page_request (lines
112-115): base URL concatenated with the formatted identifier, where a
missing identifier formats as the string None. -/
def conference_paper_url_of (cfg : Config) (xml : PexDC) : String :=
  cfg.base_conference_paper_url ++ pyFormatOpt xml.identifier

/-- Embeds POSSpider.get_conference_paper_page_request (lines 103-124): it
always returns a request (no failure path), whose URL is the base URL with
the formatted identifier and whose meta carries the source record markup. -/
def get_conference_paper_page_request (cfg : Config) (xml_selector : PexDC) :
    PaperRequest :=
  { url := conference_paper_url_of cfg xml_selector
  , meta := { xml_record := xml_selector, html_record := none } }

/-- The proceedings-page request produced by stage 1: its URL and the pos_id
stored into meta for the proceedings callback. -/
structure ProcRequest where
  url : String
  pos_id : Option String
  deriving DecidableEq

/-- Embeds POSSpider.get_conference_proceedings_page_request (lines 146-173):
a missing or empty paper-page markup is falsy and raises the extraction
exception, then the proceedings URL is resolved from the markup, then the
identifier is re-extracted from the source record markup as pos_id. -/
def get_conference_proceedings_page_request (cfg : Config) (meta : Meta) :
    Except PosError ProcRequest :=
  match meta.html_record with
  | none => Except.error PosError.emptyPaperPage
  | some page =>
    if page.isEmptyMarkup then Except.error PosError.emptyPaperPage
    else
      match _get_proceedings_page_url cfg page with
      | Except.error e => Except.error e
      | Except.ok u =>
        Except.ok { url := u, pos_id := meta.xml_record.identifier }

/-- The observable events of one chain, in order: the paper-page fetch being
issued, the paper record being emitted, the proceedings fetch being issued,
the proceedings record being emitted, and an exception surfacing. -/
inductive Event
  | paperFetch (url : String)
  | paperRecordEmitted (r : ConferencePaperRecord)
  | procFetch (url : String)
  | procRecordEmitted (r : ProceedingsRecord)
  | errorReported (e : PosError)
  deriving DecidableEq

/-- Whether the event is the emission of a conference paper record. -/
def Event.isPaperRecord : Event → Bool
  | .paperRecordEmitted _ => true
  | _ => false

/-- Whether the event is the emission of an output record of either type. -/
def Event.isRecord : Event → Bool
  | .paperRecordEmitted _ => true
  | .procRecordEmitted _ => true
  | _ => false

/-- The fetch environment of one chain: the markup the transport returns for
the paper-page request and for the proceedings-page request. -/
structure FetchEnv where
  paperPage : Html
  procPage : ProcHtml
  deriving DecidableEq

/-- The URL of the stage-0 paper-page request. -/
def paperFetchUrl (cfg : Config) (xml : PexDC) : String :=
  (get_conference_paper_page_request cfg xml).url

/-- The events of the proceedings stage of one chain: resolving the
proceedings request (get_conference_proceedings_page_request, lines
146-173) either raises, ending the stage with an error event, or issues
the proceedings fetch; parse_conference_proceedings (lines 175-180) then
builds the proceedings record or raises.  Items yielded before an
exception stand. -/
def stage2Events (cfg : Config) (xml : PexDC) (env : FetchEnv) :
    List Event :=
  match get_conference_proceedings_page_request cfg
      { xml_record := xml, html_record := some env.paperPage } with
  | Except.error e => [Event.errorReported e]
  | Except.ok preq =>
    match build_conference_proceedings_item env.procPage preq.pos_id with
    | Except.error e => [Event.procFetch preq.url, Event.errorReported e]
    | Except.ok proc =>
      [Event.procFetch preq.url, Event.procRecordEmitted proc]

/-- Runs one chain for one source record against a fetch environment and
returns the ordered event trace.  This composes the spider callbacks exactly
as scrapy drives them: get_conference_paper_page_request issues the paper
fetch; parse_conference_paper (lines 126-144) extracts the pdf URL and
builds the paper item before its first yield, yields the paper record, then
continues with the proceedings stage. -/
def runChain (cfg : Config) (xml : PexDC) (env : FetchEnv) : List Event :=
  match _get_conference_paper_pdf_url cfg env.paperPage with
  | Except.error e =>
    [Event.paperFetch (paperFetchUrl cfg xml), Event.errorReported e]
  | Except.ok pdfUrl =>
    match build_conference_paper_item xml (paperFetchUrl cfg xml)
        pdfUrl with
    | Except.error e =>
      [Event.paperFetch (paperFetchUrl cfg xml), Event.errorReported e]
    | Except.ok item =>
      Event.paperFetch (paperFetchUrl cfg xml) ::
      Event.paperRecordEmitted item :: stage2Events cfg xml env

/-- Big-step transition relation of the chain state machine: one derivation
per terminal outcome, with the side conditions of each stage recorded as
hypotheses.  It relates a configuration, source record and fetch environment
to the event trace the chain produces. -/
inductive ChainRun (cfg : Config) (xml : PexDC) (env : FetchEnv) :
    List Event → Prop
  | pdfFail (e : PosError)
      (h1 : _get_conference_paper_pdf_url cfg env.paperPage =
        Except.error e) :
      ChainRun cfg xml env
        [Event.paperFetch (paperFetchUrl cfg xml), Event.errorReported e]
  | paperBuildFail (u : String) (e : PosError)
      (h1 : _get_conference_paper_pdf_url cfg env.paperPage = Except.ok u)
      (h2 : build_conference_paper_item xml (paperFetchUrl cfg xml) u =
        Except.error e) :
      ChainRun cfg xml env
        [Event.paperFetch (paperFetchUrl cfg xml), Event.errorReported e]
  | procReqFail (u : String) (r : ConferencePaperRecord) (e : PosError)
      (h1 : _get_conference_paper_pdf_url cfg env.paperPage = Except.ok u)
      (h2 : build_conference_paper_item xml (paperFetchUrl cfg xml) u =
        Except.ok r)
      (h3 : get_conference_proceedings_page_request cfg
          { xml_record := xml, html_record := some env.paperPage } =
        Except.error e) :
      ChainRun cfg xml env
        [Event.paperFetch (paperFetchUrl cfg xml),
         Event.paperRecordEmitted r, Event.errorReported e]
  | procBuildFail (u : String) (r : ConferencePaperRecord)
      (preq : ProcRequest) (e : PosError)
      (h1 : _get_conference_paper_pdf_url cfg env.paperPage = Except.ok u)
      (h2 : build_conference_paper_item xml (paperFetchUrl cfg xml) u =
        Except.ok r)
      (h3 : get_conference_proceedings_page_request cfg
          { xml_record := xml, html_record := some env.paperPage } =
        Except.ok preq)
      (h4 : build_conference_proceedings_item env.procPage preq.pos_id =
        Except.error e) :
      ChainRun cfg xml env
        [Event.paperFetch (paperFetchUrl cfg xml),
         Event.paperRecordEmitted r, Event.procFetch preq.url,
         Event.errorReported e]
  | chainDone (u : String) (r : ConferencePaperRecord)
      (preq : ProcRequest) (p : ProceedingsRecord)
      (h1 : _get_conference_paper_pdf_url cfg env.paperPage = Except.ok u)
      (h2 : build_conference_paper_item xml (paperFetchUrl cfg xml) u =
        Except.ok r)
      (h3 : get_conference_proceedings_page_request cfg
          { xml_record := xml, html_record := some env.paperPage } =
        Except.ok preq)
      (h4 : build_conference_proceedings_item env.procPage preq.pos_id =
        Except.ok p) :
      ChainRun cfg xml env
        [Event.paperFetch (paperFetchUrl cfg xml),
         Event.paperRecordEmitted r, Event.procFetch preq.url,
         Event.procRecordEmitted p]

/-- The functional chain run realizes the transition relation. -/
theorem chainRun_runChain (cfg : Config) (xml : PexDC) (env : FetchEnv) :
    ChainRun cfg xml env (runChain cfg xml env) := by
  unfold runChain stage2Events
  split
  next e h1 => exact ChainRun.pdfFail e h1
  next u h1 =>
    split
    next e h2 => exact ChainRun.paperBuildFail u e h1 h2
    next r h2 =>
      split
      next e h3 => exact ChainRun.procReqFail u r e h1 h2 h3
      next preq h3 =>
        split
        next e h4 => exact ChainRun.procBuildFail u r preq e h1 h2 h3 h4
        next p h4 => exact ChainRun.chainDone u r preq p h1 h2 h3 h4

/-- The default configuration. -/
def cfgD : Config := {}

/-- A well-formed source record fixture. -/
def xmlGood : PexDC :=
  { identifier := some "JHEP01(2016)001"
  , title := some "Some title"
  , dateStr := some "2016-03-04"
  , language := some "fr"
  , rights := some "CC-BY-NC-SA"
  , publisher := some "SISSA"
  , creators := [{ nameTexts := ["El-Khadra, Aida"],
                   affiliationTexts := ["INFN"] }] }

/-- An anchor whose text contains pdf. -/
def pdfAnchor : Anchor := { text := "pdf", href := some "/archive/paper.pdf" }

/-- The non-pdf details anchor of the spec test property. -/
def detailsAnchor : Anchor := { text := "details", href := some "/contrib/001" }

/-- A paper page with a pdf anchor and a details anchor. -/
def pageGood : Html := { isEmptyMarkup := false, anchors := [pdfAnchor, detailsAnchor] }

/-- A paper page whose only anchor has pdf text. -/
def pagePdfOnly : Html := { isEmptyMarkup := false, anchors := [pdfAnchor] }

/-- A paper page with no pdf anchor. -/
def pageNoPdf : Html := { isEmptyMarkup := false, anchors := [detailsAnchor] }

/-- A proceedings page fixture. -/
def procHtmlGood : ProcHtml :=
  { h1Texts := ["Conference title"], conferenceDateTexts := ["Trieste, ", "June 2016"] }

/-- The fetch environment of the fully successful chain fixture. -/
def envGood : FetchEnv := { paperPage := pageGood, procPage := procHtmlGood }


/-- The conference paper record the fully successful chain fixture emits. -/
def rChainGood : ConferencePaperRecord :=
  { license := ["CC-BY-NC-SA"]
  , date_published := "2016-03-04"
  , journal_year := 2016
  , journal_title := "JHEP01"
  , journal_volume := "2016"
  , journal_artid := "001"
  , title := some "Some title"
  , source := some "SISSA"
  , external_system_numbers := [{ institute := "pos", value := some "JHEP01(2016)001" }]
  , language := some "fr"
  , authors := [{ raw_name := some "El-Khadra, Aida", affiliations := some [{ value := "INFN" }] }]
  , collections := ["conferencepaper"]
  , urls := ["https://pos.sissa.it/contribution?id=JHEP01(2016)001"]
  , fft := [{ path := "https://pos.sissa.it/archive/paper.pdf" }] }

/-- The same record as built with placeholder URLs. -/
def rGoodU : ConferencePaperRecord :=
  { rChainGood with urls := ["u"], fft := [{ path := "p" }] }

/-- The proceedings record the fully successful chain fixture emits. -/
def pGood : ProceedingsRecord :=
  { collections := ["proceeding"]
  , title := some "Conference title"
  , subtitle := "Trieste, June 2016"
  , journal_title := "PoS"
  , journal_volume := "2016" }

/-- Field inversion for a successful conference paper build: the language
field is the language policy result, the urls field holds exactly the paper
URL, and the three journal components come from the identifier split. -/
theorem build_paper_ok_fields (xml : PexDC) (u pdf : String)
    (r : ConferencePaperRecord)
    (hb : build_conference_paper_item xml u pdf = Except.ok r) :
    r.language = _get_language xml ∧ r.urls = [u] ∧
    ∃ idv, xml.identifier = some idv ∧
      some r.journal_title = _get_journal_title idv ∧
      some r.journal_volume = _get_journal_volume idv ∧
      some r.journal_artid = _get_journal_artid idv := by
  unfold build_conference_paper_item at hb
  split at hb
  · cases hb
  · split at hb
    · cases hb
    next idv hid =>
      split at hb
      · cases hb
      next jt hjt =>
        split at hb
        · cases hb
        next jv hjv =>
          split at hb
          · cases hb
          next ja hja =>
            cases hb
            exact ⟨rfl, rfl, idv, hid, by simp [hjt], by simp [hjv],
              by simp [hja]⟩

/-- Field inversion for a successful proceedings build: the pos_id was
present and the journal volume is its second split component. -/
theorem build_proceedings_ok_fields (ph : ProcHtml) (pid : Option String)
    (p : ProceedingsRecord)
    (hb : build_conference_proceedings_item ph pid = Except.ok p) :
    ∃ idv, pid = some idv ∧ some p.journal_volume = _get_journal_volume idv := by
  unfold build_conference_proceedings_item at hb
  split at hb
  · cases hb
  next idv =>
    split at hb
    · cases hb
    next jv hjv =>
      cases hb
      exact ⟨idv, rfl, by simp [hjv]⟩

/-- C4: journal decomposition splits the identifier on parenthesis
characters and takes components zero, one and two of the split as journal
title, volume and article id; there is no fallback when the split is short
(the result stays none, embedding the IndexError); the identifier
JHEP01(2016)001 decomposes into JHEP01, 2016 and 001. -/
theorem journal_reference_decomposition :
    (_get_journal_title "JHEP01(2016)001" = some "JHEP01"
      ∧ _get_journal_volume "JHEP01(2016)001" = some "2016"
      ∧ _get_journal_artid "JHEP01(2016)001" = some "001")
    ∧ (∀ s : String,
        _get_journal_title s = (splitParens s).get? 0
        ∧ _get_journal_volume s = (splitParens s).get? 1
        ∧ _get_journal_artid s = (splitParens s).get? 2)
    ∧ _get_journal_artid "JHEP01" = none :=
  ⟨by decide, fun s => ⟨rfl, rfl, rfl⟩, by decide⟩

/-- C5: in a successfully built conference paper record, the language field
is absent exactly when the source language code equals en, and any other
code is carried through unchanged. -/
theorem language_absent_iff_source_en (xml : PexDC) (u pdf : String)
    (r : ConferencePaperRecord) (code : String)
    (hb : build_conference_paper_item xml u pdf = Except.ok r)
    (hl : xml.language = some code) :
    (r.language = none ↔ code = "en")
    ∧ (code ≠ "en" → r.language = some code) := by
  obtain ⟨hlang, -, -⟩ := build_paper_ok_fields xml u pdf r hb
  rw [hlang]
  unfold _get_language
  rw [hl]
  by_cases hc : code = "en" <;> simp [hc]

/-- Witness for the language policy theorem at a concrete record with the
source language code fr. -/
theorem language_absent_iff_source_en_witness :
    (rGoodU.language = none ↔ "fr" = "en")
    ∧ ("fr" ≠ "en" → rGoodU.language = some "fr") :=
  language_absent_iff_source_en xmlGood "u" "p" rGoodU "fr"
    (by decide) (by decide)

/-- A creator element with no name text node and no affiliation text node. -/
def creatorEmpty : Creator := { nameTexts := [], affiliationTexts := [] }

/-- A source record whose only creator has nothing to extract. -/
def xmlEmptyCreator : PexDC := { xmlGood with creators := [creatorEmpty] }

/-- C8 counterexample: a creator with no extractable name and no affiliation
is still included, as a dictionary whose raw_name is the empty string,
rather than being omitted; the resulting authors list is nonempty. -/
theorem nameless_creator_included_counterexample :
    _get_authors xmlEmptyCreator =
      [{ raw_name := some "", affiliations := none }]
    ∧ _get_authors xmlEmptyCreator ≠ [] := by decide

/-- The author dictionary the loop builds is never empty, because raw_name
is always set (possibly to the empty string). -/
theorem authDictOfCreator_not_empty (c : Creator) :
    (authDictOfCreator c).isEmptyDict = false := rfl

/-- C8 amended: author aggregation keeps every creator element, in order.
Per creator, raw_name is the first name text node with the empty string as
default and is therefore always set, and affiliations collects all
affiliation text nodes in order, set exactly when at least one exists.
Because raw_name is always set the author dictionary is never empty, so the
nonempty test of the source omits no creator. -/
theorem authors_every_creator_included (selector : PexDC) :
    _get_authors selector = selector.creators.map authDictOfCreator
    ∧ ∀ c : Creator,
        (authDictOfCreator c).raw_name = some (get_first c.nameTexts "")
        ∧ (authDictOfCreator c).affiliations =
            (if c.affiliationTexts.isEmpty then none
             else some (c.affiliationTexts.map (fun t => { value := t })))
        ∧ (authDictOfCreator c).isEmptyDict = false := by
  constructor
  · unfold _get_authors
    simp only [authDictOfCreator_not_empty, Bool.false_eq_true, if_false]
    rw [List.map_eq_foldr]
  · intro c
    exact ⟨rfl, rfl, authDictOfCreator_not_empty c⟩

/-- C3 counterexample: on a page whose first non-pdf anchor is the details
anchor with href /contrib/001, the code takes component one of the slash
split of the href, which is contrib and not 001, so the resolved proceedings
URL is not the base proceedings URL followed by 001. -/
theorem proceedings_url_concrete_counterexample :
    _get_proceedings_page_url cfgD pageGood =
      Except.ok (DEFAULT_BASE_PROCEEDINGS_URL ++ "contrib")
    ∧ DEFAULT_BASE_PROCEEDINGS_URL ++ "contrib" ≠
        DEFAULT_BASE_PROCEEDINGS_URL ++ "001" := by decide

/-- C3 amended: when the first href among anchors whose text does not
contain pdf has a component at index one of its slash split, the
proceedings URL is the base proceedings URL followed by that component.
For a root-relative href such as /contrib/001 that component is the first
path segment (contrib), not the second. -/
theorem proceedings_url_second_split_component (cfg : Config) (page : Html)
    (h seg : String)
    (hfirst : ((page.anchors.filter
        (fun a => !(strContains a.text "pdf"))).filterMap
        (fun a => a.href)).head? = some h)
    (hseg : (pySplitSlash h).get? 1 = some seg) :
    _get_proceedings_page_url cfg page =
      Except.ok (cfg.base_proceedings_url ++ seg) := by
  unfold _get_proceedings_page_url
  simp only [hfirst, hseg]

/-- Witness for the amended proceedings URL theorem at the concrete page. -/
theorem proceedings_url_second_split_component_witness :
    _get_proceedings_page_url cfgD pageGood =
      Except.ok (cfgD.base_proceedings_url ++ "contrib") :=
  proceedings_url_second_split_component cfgD pageGood "/contrib/001"
    "contrib" (by decide) (by decide)

/-- No event of the proceedings stage is a paper record emission. -/
theorem stage2Events_no_paper_record (cfg : Config) (xml : PexDC)
    (env : FetchEnv) :
    ∀ ev ∈ stage2Events cfg xml env, Event.isPaperRecord ev = false := by
  unfold stage2Events
  split
  · intro ev hev
    simp only [List.mem_singleton] at hev
    subst hev
    rfl
  · split <;>
      (intro ev hev
       simp only [List.mem_cons, List.mem_singleton,
         List.not_mem_nil, or_false] at hev
       rcases hev with h | h <;> (subst h; rfl))

/-- The proceedings stage does not depend on the markup fetched for the
paper page beyond what is recorded in the environment, and its events are
determined by the proceedings request outcome; in particular the first two
chain events never come from it. -/
theorem runChain_take_two (cfg : Config) (xml : PexDC) (env : FetchEnv)
    (u : String) (r : ConferencePaperRecord)
    (hpdf : _get_conference_paper_pdf_url cfg env.paperPage = Except.ok u)
    (hbuild : build_conference_paper_item xml (paperFetchUrl cfg xml) u =
      Except.ok r) :
    runChain cfg xml env =
      Event.paperFetch (paperFetchUrl cfg xml) ::
      Event.paperRecordEmitted r :: stage2Events cfg xml env := by
  unfold runChain
  simp only [hpdf, hbuild]

/-- C1 amended: for every chain whose paper page yields a pdf link and whose
record normalization succeeds (the identifier decomposes and the date
parses), exactly one conference paper record is emitted, directly after the
paper fetch and before any proceedings fetch, and the first two events of
the trace (the paper fetch and the paper record emission) are the same for
every proceedings-page markup, so the emission does not depend on the
outcome of the proceedings stage. -/
theorem paper_record_emitted_once_before_proceedings
    (cfg : Config) (xml : PexDC) (env : FetchEnv) (u : String)
    (r : ConferencePaperRecord)
    (hpdf : _get_conference_paper_pdf_url cfg env.paperPage = Except.ok u)
    (hbuild : build_conference_paper_item xml (paperFetchUrl cfg xml) u =
      Except.ok r) :
    (runChain cfg xml env).get? 1 = some (Event.paperRecordEmitted r)
    ∧ (runChain cfg xml env).countP Event.isPaperRecord = 1
    ∧ (∀ i u2, (runChain cfg xml env).get? i = some (Event.procFetch u2) →
        2 ≤ i)
    ∧ ∀ q : ProcHtml,
        (runChain cfg xml { paperPage := env.paperPage, procPage := q }).take 2
          = (runChain cfg xml env).take 2 := by
  have hshape := runChain_take_two cfg xml env u r hpdf hbuild
  refine ⟨?_, ?_, ?_, ?_⟩
  · rw [hshape]; rfl
  · rw [hshape]
    simp only [List.countP_cons]
    have hz : (stage2Events cfg xml env).countP Event.isPaperRecord = 0 :=
      List.countP_eq_zero.mpr
        (by
          intro ev hev
          simp [stage2Events_no_paper_record cfg xml env ev hev])
    simp [hz, Event.isPaperRecord]
  · intro i u2 hi
    rw [hshape] at hi
    match i with
    | 0 => simp at hi
    | 1 => simp at hi
    | n + 2 => omega
  · intro q
    have hshape2 := runChain_take_two cfg xml
      { paperPage := env.paperPage, procPage := q } u r hpdf hbuild
    rw [hshape, hshape2]
    rfl

/-- Witness for the amended single-emission theorem on the fully successful
chain fixture. -/
theorem paper_record_emitted_once_before_proceedings_witness :
    (runChain cfgD xmlGood envGood).get? 1 =
      some (Event.paperRecordEmitted rChainGood)
    ∧ (runChain cfgD xmlGood envGood).countP Event.isPaperRecord = 1
    ∧ (∀ i u2, (runChain cfgD xmlGood envGood).get? i =
        some (Event.procFetch u2) → 2 ≤ i)
    ∧ ∀ q : ProcHtml,
        (runChain cfgD xmlGood
          { paperPage := envGood.paperPage, procPage := q }).take 2
          = (runChain cfgD xmlGood envGood).take 2 :=
  paper_record_emitted_once_before_proceedings cfgD xmlGood envGood
    "https://pos.sissa.it/archive/paper.pdf" rChainGood
    (by decide) (by decide)

/-- A source record whose identifier does not decompose into three
parenthesis-delimited parts. -/
def xmlBadId : PexDC := { xmlGood with identifier := some "XYZ" }

/-- C1 counterexample: a record whose paper page resolves and contains a pdf
anchor, yet the chain emits no conference paper record at all, because the
journal decomposition of the identifier XYZ raises an IndexError inside the
record build, before the first yield of the callback. -/
theorem paper_record_suppressed_by_malformed_identifier :
    pdfAnchor ∈ pageGood.anchors
    ∧ strContains pdfAnchor.text "pdf" = true
    ∧ runChain cfgD xmlBadId envGood =
        [Event.paperFetch (DEFAULT_BASE_CONFERENCE_PAPER_URL ++ "XYZ"),
         Event.errorReported PosError.indexError]
    ∧ (runChain cfgD xmlBadId envGood).countP Event.isPaperRecord = 0 := by
  decide

/-- C2: when no anchor of the paper page has text containing pdf, the chain
reports the pdf-link extraction failure (the raised PoSExtractionException)
and emits no output record of either kind. -/
theorem no_pdf_anchor_emits_zero_records (cfg : Config) (xml : PexDC)
    (env : FetchEnv)
    (h : ∀ a ∈ env.paperPage.anchors, strContains a.text "pdf" = false) :
    runChain cfg xml env =
      [Event.paperFetch (paperFetchUrl cfg xml),
       Event.errorReported PosError.pdfLinkNotFound]
    ∧ PosError.isReportedExtraction PosError.pdfLinkNotFound = true
    ∧ ∀ ev ∈ runChain cfg xml env, Event.isRecord ev = false := by
  have hfilter :
      env.paperPage.anchors.filter (fun a => strContains a.text "pdf") = [] :=
    List.filter_eq_nil_iff.mpr (fun a ha => by simp [h a ha])
  have hpdf : _get_conference_paper_pdf_url cfg env.paperPage =
      Except.error PosError.pdfLinkNotFound := by
    unfold _get_conference_paper_pdf_url
    rw [hfilter]
    rfl
  have hrun : runChain cfg xml env =
      [Event.paperFetch (paperFetchUrl cfg xml),
       Event.errorReported PosError.pdfLinkNotFound] := by
    unfold runChain
    rw [hpdf]
  refine ⟨hrun, rfl, ?_⟩
  intro ev hev
  rw [hrun] at hev
  simp only [List.mem_cons, List.mem_singleton, List.not_mem_nil,
    or_false] at hev
  rcases hev with h1 | h1 <;> (subst h1; rfl)

/-- Witness for the zero-record theorem on a page with no pdf anchor. -/
theorem no_pdf_anchor_emits_zero_records_witness :
    runChain cfgD xmlGood { paperPage := pageNoPdf, procPage := procHtmlGood }
      = [Event.paperFetch (paperFetchUrl cfgD xmlGood),
         Event.errorReported PosError.pdfLinkNotFound]
    ∧ PosError.isReportedExtraction PosError.pdfLinkNotFound = true
    ∧ ∀ ev ∈ runChain cfgD xmlGood
        { paperPage := pageNoPdf, procPage := procHtmlGood },
        Event.isRecord ev = false :=
  no_pdf_anchor_emits_zero_records cfgD xmlGood
    { paperPage := pageNoPdf, procPage := procHtmlGood } (by decide)

/-- A source record with no identifier text node. -/
def xmlNoId : PexDC := { xmlGood with identifier := none }

/-- C6 counterexample: with the identifier absent, no error is raised before
network activity; the paper fetch is issued, with the Python string None
formatted into the URL, and the chain only fails later, inside the record
build, with the TypeError of re.split on None. -/
theorem missing_identifier_fetch_issued_counterexample :
    (runChain cfgD xmlNoId envGood).get? 0 =
      some (Event.paperFetch (DEFAULT_BASE_CONFERENCE_PAPER_URL ++ "None"))
    ∧ runChain cfgD xmlNoId envGood =
        [Event.paperFetch (DEFAULT_BASE_CONFERENCE_PAPER_URL ++ "None"),
         Event.errorReported PosError.typeErrorSplitNone] := by
  decide

/-- C6 amended: when the identifier is absent from the source record, the
chain does not fail before network activity; the paper-page request is still
issued, its URL being the base URL with the literal string None appended
(the Python string formatting of None). -/
theorem missing_identifier_still_fetches (cfg : Config) (xml : PexDC)
    (env : FetchEnv) (h : xml.identifier = none) :
    (runChain cfg xml env).get? 0 =
      some (Event.paperFetch (cfg.base_conference_paper_url ++ "None")) := by
  have hu : paperFetchUrl cfg xml = cfg.base_conference_paper_url ++ "None" := by
    unfold paperFetchUrl get_conference_paper_page_request
      conference_paper_url_of
    rw [h]
    rfl
  unfold runChain
  split
  · simp [hu]
  · split <;> simp [hu]

/-- Witness for the amended missing-identifier theorem. -/
theorem missing_identifier_still_fetches_witness :
    (runChain cfgD xmlNoId envGood).get? 0 =
      some (Event.paperFetch (cfgD.base_conference_paper_url ++ "None")) :=
  missing_identifier_still_fetches cfgD xmlNoId envGood (by decide)

/-- C7 counterexample: on a nonempty paper page whose only anchor has pdf
text, the proceedings request does not fail with a reported extraction
error; the code crashes with the AttributeError of calling split on None,
because extract_first found no non-pdf href. -/
theorem proceedings_no_anchor_crash_counterexample :
    get_conference_proceedings_page_request cfgD
        { xml_record := xmlGood, html_record := some pagePdfOnly } =
      Except.error PosError.attributeErrorNoneSplit
    ∧ PosError.isReportedExtraction PosError.attributeErrorNoneSplit = false
    ∧ pagePdfOnly.isEmptyMarkup = false := by
  decide

/-- The fetch environment whose paper page has only the pdf anchor. -/
def envPdfOnly : FetchEnv :=
  { paperPage := pagePdfOnly, procPage := procHtmlGood }

/-- C7 amended: when the proceedings request raises (for any reason), the
chain ends with that error right after the paper record emission: the
proceedings fetch is never issued and the already-emitted paper record is
unaffected.  An empty paper-page markup raises the reported empty-page
extraction error; a nonempty markup with no qualifying anchor crashes with
the AttributeError of calling split on None. -/
theorem proceedings_resolution_failure_chain_local (cfg : Config)
    (xml : PexDC) (env : FetchEnv) (u : String) (r : ConferencePaperRecord)
    (e : PosError)
    (hpdf : _get_conference_paper_pdf_url cfg env.paperPage = Except.ok u)
    (hbuild : build_conference_paper_item xml (paperFetchUrl cfg xml) u =
      Except.ok r)
    (hfail : get_conference_proceedings_page_request cfg
        { xml_record := xml, html_record := some env.paperPage } =
      Except.error e) :
    runChain cfg xml env =
      [Event.paperFetch (paperFetchUrl cfg xml),
       Event.paperRecordEmitted r, Event.errorReported e]
    ∧ (∀ u2, Event.procFetch u2 ∉ runChain cfg xml env)
    ∧ Event.paperRecordEmitted r ∈ runChain cfg xml env
    ∧ (∀ page : Html, page.isEmptyMarkup = true →
        get_conference_proceedings_page_request cfg
          { xml_record := xml, html_record := some page } =
          Except.error PosError.emptyPaperPage)
    ∧ (∀ page : Html, page.isEmptyMarkup = false →
        ((page.anchors.filter
            (fun a => !(strContains a.text "pdf"))).filterMap
            (fun a => a.href)).head? = none →
        get_conference_proceedings_page_request cfg
          { xml_record := xml, html_record := some page } =
          Except.error PosError.attributeErrorNoneSplit) := by
  have hrun : runChain cfg xml env =
      [Event.paperFetch (paperFetchUrl cfg xml),
       Event.paperRecordEmitted r, Event.errorReported e] := by
    rw [runChain_take_two cfg xml env u r hpdf hbuild]
    unfold stage2Events
    rw [hfail]
  refine ⟨hrun, ?_, ?_, ?_, ?_⟩
  · intro u2
    rw [hrun]
    simp
  · rw [hrun]
    simp
  · intro page hempty
    unfold get_conference_proceedings_page_request
    simp [hempty]
  · intro page hempty hnone
    unfold get_conference_proceedings_page_request
    simp only [hempty, Bool.false_eq_true, if_false]
    unfold _get_proceedings_page_url
    rw [hnone]

/-- Witness for the amended proceedings-failure theorem on the fixture whose
paper page has only a pdf anchor. -/
theorem proceedings_resolution_failure_chain_local_witness :
    runChain cfgD xmlGood envPdfOnly =
      [Event.paperFetch (paperFetchUrl cfgD xmlGood),
       Event.paperRecordEmitted rChainGood,
       Event.errorReported PosError.attributeErrorNoneSplit]
    ∧ (∀ u2, Event.procFetch u2 ∉ runChain cfgD xmlGood envPdfOnly)
    ∧ Event.paperRecordEmitted rChainGood ∈ runChain cfgD xmlGood envPdfOnly
    ∧ (∀ page : Html, page.isEmptyMarkup = true →
        get_conference_proceedings_page_request cfgD
          { xml_record := xmlGood, html_record := some page } =
          Except.error PosError.emptyPaperPage)
    ∧ (∀ page : Html, page.isEmptyMarkup = false →
        ((page.anchors.filter
            (fun a => !(strContains a.text "pdf"))).filterMap
            (fun a => a.href)).head? = none →
        get_conference_proceedings_page_request cfgD
          { xml_record := xmlGood, html_record := some page } =
          Except.error PosError.attributeErrorNoneSplit) :=
  proceedings_resolution_failure_chain_local cfgD xmlGood envPdfOnly
    "https://pos.sissa.it/archive/paper.pdf" rChainGood
    PosError.attributeErrorNoneSplit (by decide) (by decide) (by decide)

/-- In a successful proceedings request, the pos_id stored into meta is the
identifier re-extracted from the source record markup of the chain. -/
theorem proc_request_ok_pos_id (cfg : Config) (meta : Meta)
    (preq : ProcRequest)
    (h : get_conference_proceedings_page_request cfg meta = Except.ok preq) :
    preq.pos_id = meta.xml_record.identifier := by
  unfold get_conference_proceedings_page_request at h
  split at h
  · cases h
  · split at h
    · cases h
    · split at h
      · cases h
      · cases h
        rfl

/-- C9: whenever one chain emits both records, the paper fetch URL is the
base URL with the identifier of the source record appended, the journal
reference of the paper record is the decomposition of that same identifier,
and the journal volume of the proceedings record is the same component of
the same identifier, so both records and the fetch URL agree on one
identifier value per chain. -/
theorem identifier_consistent_across_chain (cfg : Config) (xml : PexDC)
    (env : FetchEnv) (idv : String) (r : ConferencePaperRecord)
    (p : ProceedingsRecord)
    (hid : xml.identifier = some idv)
    (hr : Event.paperRecordEmitted r ∈ runChain cfg xml env)
    (hp : Event.procRecordEmitted p ∈ runChain cfg xml env) :
    (runChain cfg xml env).get? 0 =
      some (Event.paperFetch (cfg.base_conference_paper_url ++ idv))
    ∧ some r.journal_title = _get_journal_title idv
    ∧ some r.journal_volume = _get_journal_volume idv
    ∧ some r.journal_artid = _get_journal_artid idv
    ∧ some p.journal_volume = _get_journal_volume idv
    ∧ p.journal_volume = r.journal_volume := by
  have hurl : paperFetchUrl cfg xml = cfg.base_conference_paper_url ++ idv := by
    unfold paperFetchUrl get_conference_paper_page_request
      conference_paper_url_of
    rw [hid]
    rfl
  have hrun := chainRun_runChain cfg xml env
  generalize hT : runChain cfg xml env = tr at hr hp hrun ⊢
  cases hrun with
  | pdfFail e h1 => simp at hr
  | paperBuildFail u e h1 h2 => simp at hr
  | procReqFail u r0 e h1 h2 h3 => simp at hp
  | procBuildFail u r0 preq e h1 h2 h3 h4 => simp at hp
  | chainDone u r0 preq p0 h1 h2 h3 h4 =>
    simp only [List.mem_cons, List.not_mem_nil, or_false] at hr hp
    have hr0 : r = r0 := by
      rcases hr with h | h | h | h <;> simp_all
    have hp0 : p = p0 := by
      rcases hp with h | h | h | h <;> simp_all
    subst hr0
    subst hp0
    obtain ⟨-, -, idv2, hid2, hjt, hjv, hja⟩ :=
      build_paper_ok_fields xml (paperFetchUrl cfg xml) u r h2
    rw [hid] at hid2
    cases hid2
    have hpos := proc_request_ok_pos_id cfg
      { xml_record := xml, html_record := some env.paperPage } preq h3
    obtain ⟨idv3, hpid, hpjv⟩ :=
      build_proceedings_ok_fields env.procPage preq.pos_id p h4
    rw [hpos, hid] at hpid
    cases hpid
    refine ⟨by simp [hurl], hjt, hjv, hja, hpjv, ?_⟩
    exact Option.some.inj (hpjv.trans hjv.symm)

/-- Witness for the identifier consistency theorem on the fully successful
chain fixture. -/
theorem identifier_consistent_across_chain_witness :
    (runChain cfgD xmlGood envGood).get? 0 =
      some (Event.paperFetch
        (cfgD.base_conference_paper_url ++ "JHEP01(2016)001"))
    ∧ some rChainGood.journal_title = _get_journal_title "JHEP01(2016)001"
    ∧ some rChainGood.journal_volume = _get_journal_volume "JHEP01(2016)001"
    ∧ some rChainGood.journal_artid = _get_journal_artid "JHEP01(2016)001"
    ∧ some pGood.journal_volume = _get_journal_volume "JHEP01(2016)001"
    ∧ pGood.journal_volume = rChainGood.journal_volume :=
  identifier_consistent_across_chain cfgD xmlGood envGood "JHEP01(2016)001"
    rChainGood pGood (by decide) (by decide) (by decide)

/-- C10: the chain transition relation is deterministic: two runs of the
state machine on the same configuration, source record and fetched markup
produce identical event traces, and in particular identical conference
paper and proceedings records. -/
theorem chain_run_deterministic (cfg : Config) (xml : PexDC)
    (env : FetchEnv) (tr1 tr2 : List Event)
    (h1 : ChainRun cfg xml env tr1) (h2 : ChainRun cfg xml env tr2) :
    tr1 = tr2 := by
  cases h1 <;> cases h2 <;> simp_all

/-- Witness for determinism: the derivation built from the explicit stage
results and the derivation of the executable run agree on the trace of the
fully successful chain fixture. -/
theorem chain_run_deterministic_witness :
    [Event.paperFetch (paperFetchUrl cfgD xmlGood),
     Event.paperRecordEmitted rChainGood,
     Event.procFetch (DEFAULT_BASE_PROCEEDINGS_URL ++ "contrib"),
     Event.procRecordEmitted pGood] = runChain cfgD xmlGood envGood :=
  chain_run_deterministic cfgD xmlGood envGood _ _
    (ChainRun.chainDone "https://pos.sissa.it/archive/paper.pdf" rChainGood
      { url := DEFAULT_BASE_PROCEEDINGS_URL ++ "contrib"
      , pos_id := some "JHEP01(2016)001" } pGood
      (by decide) (by decide) (by decide) (by decide))
    (chainRun_runChain cfgD xmlGood envGood)
